import Mathlib

/-!
Shallow embedding of the wasp-os widget library (`wasp/widgets.py`).

Widgets are modelled as state structures; `draw`/`update`/`touch` become pure
functions from an environment (the sensor, clock, connectivity and theme
inputs that the Python code reads through `watch`/`wasp.system`) and the
widget state to the new state plus the list of Drawing Surface calls the
Python code would issue, in order.  Machine integers are ℤ (Python ints are
unbounded); Python `//` is `Int.fdiv` (floor division) and `int()` on a
float truncates toward zero.  The IEEE-754 binary64 arithmetic of
`Slider.touch` is modelled exactly: every float operation produces the
correctly rounded (round-to-nearest, ties-to-even, 53-bit) value of its
exact rational result, via `flRound`.
-/

namespace Wasp

/-- Python `//` on ints: floor division. -/
def pyFloorDiv (a b : ℤ) : ℤ := Int.fdiv a b

/-- Executable floor of a rational (numerator floor-divided by denominator). -/
def ratFloor (q : ℚ) : ℤ := q.num.fdiv q.den

/-- Executable ceiling of a rational. -/
def ratCeil (q : ℚ) : ℤ := -(ratFloor (-q))

/-- Python `int()` on a float value: truncation toward zero. -/
def pyTrunc (q : ℚ) : ℤ := if q < 0 then ratCeil q else ratFloor q

/-- Round a rational to the nearest integer, ties to even (the IEEE-754
default rounding of the significand). -/
def roundHalfEven (x : ℚ) : ℤ :=
  if x - (ratFloor x : ℚ) < 1 / 2 then ratFloor x
  else if 1 / 2 < x - (ratFloor x : ℚ) then ratFloor x + 1
  else if ratFloor x % 2 = 0 then ratFloor x else ratFloor x + 1

/-- The IEEE-754 binary64 value of an exact rational result: round to
nearest, ties to even, at 53 significant bits.  Subnormal underflow and
overflow to infinity (and CPython's `OverflowError` on converting a huge
int to float) are outside the modelled range; every quantity in the widget
code is between roughly 10^-2 and 10^3 in magnitude. -/
def flRound (q : ℚ) : ℚ :=
  if q = 0 then 0
  else
    (if q < 0 then -1 else 1) *
      (roundHalfEven (|q| * (2 : ℚ) ^ ((52 : ℤ) - Int.log 2 |q|)) : ℚ) *
      (2 : ℚ) ^ (Int.log 2 |q| - 52)

/-- Python `'{:02}'.format(n)`: decimal text zero-padded to width 2. -/
def pad2 (n : ℤ) : String :=
  let s := toString n
  if s.length < 2 then String.mk (List.replicate (2 - s.length) '0') ++ s else s

/-- The local time tuple `(year, month, day, hour, minute, second, weekday,
yearday)` returned by `rtc.get_localtime()`; equality is field-wise. -/
structure TimeTuple where
  year : ℤ
  month : ℤ
  day : ℤ
  hour : ℤ
  minute : ℤ
  second : ℤ
  weekday : ℤ
  yearday : ℤ
deriving DecidableEq, Repr

/-- The bitmaps from `icons` (and the module-level `light_off_50` literal)
that the widgets blit; payloads are opaque here. -/
inductive IconId where
  | battery
  | bluetooth
  | alert
  | upArrow
  | downArrow
  | checkbox
  | knob
  | lightOff
  | lightOff50
  | custom (n : ℕ)
deriving DecidableEq, Repr

/-- The fonts from `fonts` used by the widgets. -/
inductive FontId where
  | sans24
  | sans28
deriving DecidableEq, Repr

/-- One call to the Drawing Surface (`watch.drawable`, plus `display.mute`).
Optional arguments that the Python code omits are `none`. -/
inductive DrawCall where
  | fill (color x y w h : ℤ)
  | fillAll
  | blit (icon : IconId) (x y : ℤ) (fg bg hi : Option ℤ)
  | setColor (fg : ℤ) (bg : Option ℤ)
  | setFont (f : FontId)
  | drawString (s : String) (x y : ℤ) (w : Option ℤ)
  | mute (muted : Bool)
deriving DecidableEq, Repr

/-- The external inputs a widget method reads: current time, battery state,
connectivity, pending notifications, the theme lookup, the color transforms
and text wrapping of the Drawing Surface, and the width byte `icons.battery[1]`
of the battery bitmap (the `icons` module is not part of the analysed source,
so the width is left symbolic). -/
structure Env where
  now : TimeTuple
  charging : Bool
  batteryLevel : ℤ
  connected : Bool
  notifications : Bool
  theme : String → ℤ
  batteryIconW : ℤ
  darken : ℤ → ℤ
  lighten : ℤ → ℤ → ℤ
  wrap : String → ℤ → List ℕ

/-- `BatteryMeter` state: the cached `self.level` (-2 = never drawn,
-1 = charging). -/
structure BatteryMeter where
  level : ℤ
deriving DecidableEq, Repr

/-- `BatteryMeter.__init__`. -/
def BatteryMeter.mkNew : BatteryMeter := { level := -2 }

/-- `BatteryMeter.update`.  Note the source guards the clearing fill of the
bar with `if 18 - h:` (not `22 - h`) even though the track is 22px tall. -/
def BatteryMeter.update (env : Env) (self : BatteryMeter) :
    BatteryMeter × List DrawCall :=
  if env.charging then
    if self.level ≠ -1 then
      ({ level := -1 },
       [DrawCall.blit IconId.battery (239 - env.batteryIconW - 5) 5
          (some (env.theme "battery")) none none])
    else (self, [])
  else
    let level := env.batteryLevel
    if level = self.level then (self, [])
    else
      let green := pyFloorDiv level 3
      let green := if 31 < green then 31 else green
      let red := 31 - green
      let rgb := red * 2048 + green * 64      -- (red << 11) + (green << 6)
      let iconDraw := decide (self.level < 0) ||
        (decide (5 < level) != decide (5 < self.level))
      let (rgb, iconCalls) :=
        if iconDraw then
          if 5 < level then
            (rgb, [DrawCall.blit IconId.battery (239 - env.batteryIconW - 5) 5
                     (some (env.theme "battery")) none none])
          else
            (0xf800, [DrawCall.blit IconId.battery (239 - env.batteryIconW - 5) 5
                        (some 0xf800) none none])
        else (rgb, [])
      let w := env.batteryIconW - 4
      let x := 239 - 7 - w
      let h := pyFloorDiv (level * 22) 100
      let clearCalls := if 18 - h ≠ 0 then [DrawCall.fill 0 x 9 w (22 - h)] else []
      let fillCalls := if h ≠ 0 then [DrawCall.fill rgb x (9 + 22 - h) w h] else []
      ({ level := level }, iconCalls ++ clearCalls ++ fillCalls)

/-- `BatteryMeter.draw`: reset `level` to -2 and delegate to `update`. -/
def BatteryMeter.draw (env : Env) (_self : BatteryMeter) :
    BatteryMeter × List DrawCall :=
  BatteryMeter.update env { level := -2 }

/-- True when the call list contains a blit of the battery icon (the icon
outline redraw of `BatteryMeter.update`; the bar is drawn with fills). -/
def hasBatteryIconBlit (calls : List DrawCall) : Bool :=
  calls.any fun c =>
    match c with
    | DrawCall.blit IconId.battery _ _ _ _ _ => true
    | _ => false

/-- `Clock` widget state: the last rendered time and the enabled flag. -/
structure Clock where
  onScreen : Option TimeTuple
  enabled : Bool
deriving DecidableEq, Repr

/-- `Clock.__init__(enabled=True)`. -/
def Clock.mkNew (enabled : Bool := true) : Clock :=
  { onScreen := none, enabled := enabled }

/-- The condition `not on_screen or now[4] != on_screen[4] or now[3] != on_screen[3]`
(minute is index 4, hour is index 3). -/
def hmDiff (os : Option TimeTuple) (now : TimeTuple) : Bool :=
  match os with
  | none => true
  | some o => now.minute != o.minute || now.hour != o.hour

/-- The drawing calls of the `Clock.update` render branch. -/
def clockRenderCalls (env : Env) : List DrawCall :=
  [DrawCall.setFont FontId.sans28,
   DrawCall.setColor (env.theme "status-clock") none,
   DrawCall.drawString (pad2 env.now.hour ++ ":" ++ pad2 env.now.minute)
     52 4 (some 138)]

/-- `Clock.update`.  `if on_screen and on_screen == now:` — `on_screen` is
either `None` or a non-empty (hence truthy) tuple, so the test is equality
with a present value. -/
def Clock.update (env : Env) (self : Clock) :
    Clock × Option TimeTuple × List DrawCall :=
  let now := env.now
  if self.onScreen = some now then (self, none, [])
  else
    let calls :=
      if self.enabled && hmDiff self.onScreen now then clockRenderCalls env
      else []
    ({ self with onScreen := some now }, some now, calls)

/-- `Clock.draw`: clear `on_screen`, delegate to `update`. -/
def Clock.draw (env : Env) (self : Clock) :
    Clock × Option TimeTuple × List DrawCall :=
  Clock.update env { self with onScreen := none }

/-- `NotificationBar` state: its position. -/
structure NotificationBar where
  x : ℤ
  y : ℤ
deriving DecidableEq, Repr

/-- `NotificationBar.__init__(x=0, y=0)`. -/
def NotificationBar.mkNew (x : ℤ := 0) (y : ℤ := 0) : NotificationBar :=
  { x := x, y := y }

/-- `NotificationBar.update`: unconditionally repaints from the connection
and notification flags. -/
def NotificationBar.update (env : Env) (self : NotificationBar) :
    List DrawCall :=
  if env.connected then
    [DrawCall.blit IconId.bluetooth (self.x + 5) (self.y + 5)
       (some (env.theme "ble")) none none] ++
    (if env.notifications then
       [DrawCall.blit IconId.alert (self.x + 22 + 5) (self.y + 5)
          (some (env.theme "notify-icon")) none none]
     else
       [DrawCall.fill 0 (self.x + 22 + 5) (self.y + 5) 30 32])
  else if env.notifications then
    [DrawCall.blit IconId.alert self.x self.y
       (some (env.theme "notify-icon")) none none,
     DrawCall.fill 0 (self.x + 30) self.y 22 32]
  else
    [DrawCall.fill 0 self.x self.y 52 32]

/-- `NotificationBar.draw` is a synonym for `update`. -/
def NotificationBar.draw (env : Env) (self : NotificationBar) :
    List DrawCall :=
  NotificationBar.update env self

/-- Which child widgets a `StatusBar.update` call invoked, in order. -/
inductive Child where
  | clockC
  | meterC
  | notifC
deriving DecidableEq, Repr

/-- `StatusBar` state: its three owned children. -/
structure StatusBar where
  clock : Clock
  meter : BatteryMeter
  notif : NotificationBar
deriving DecidableEq, Repr

/-- `StatusBar.__init__`. -/
def StatusBar.mkNew : StatusBar :=
  { clock := Clock.mkNew, meter := BatteryMeter.mkNew, notif := NotificationBar.mkNew }

/-- Result of `StatusBar.update`: new state, returned value, drawing calls,
and the trace of child `update` invocations. -/
structure StatusBarUpd where
  state : StatusBar
  result : Option TimeTuple
  calls : List DrawCall
  trace : List Child

/-- `StatusBar.update`: `now = self._clock.update(); if now: meter; notif`.
A present time tuple is truthy, so `if now:` means `now` is not `None`. -/
def StatusBar.update (env : Env) (self : StatusBar) : StatusBarUpd :=
  match (Clock.update env self.clock).2.1 with
  | none =>
      { state := { clock := (Clock.update env self.clock).1,
                   meter := self.meter, notif := self.notif },
        result := none,
        calls := (Clock.update env self.clock).2.2,
        trace := [Child.clockC] }
  | some t =>
      { state := { clock := (Clock.update env self.clock).1,
                   meter := (BatteryMeter.update env self.meter).1,
                   notif := self.notif },
        result := some t,
        calls := (Clock.update env self.clock).2.2 ++
                 (BatteryMeter.update env self.meter).2 ++
                 NotificationBar.update env self.notif,
        trace := [Child.clockC, Child.meterC, Child.notifC] }

/-- `ScrollIndicator` state: position and the two arrow flags. -/
structure ScrollIndicator where
  x : ℤ
  y : ℤ
  up : Bool
  down : Bool
deriving DecidableEq, Repr

/-- `ScrollIndicator.__init__(x=240-18, y=240-24)`. -/
def ScrollIndicator.mkNew (x : ℤ := 240 - 18) (y : ℤ := 240 - 24) :
    ScrollIndicator :=
  { x := x, y := y, up := true, down := true }

/-- `ScrollIndicator.update`: blit the enabled arrows. -/
def ScrollIndicator.update (env : Env) (self : ScrollIndicator) :
    List DrawCall :=
  let color := env.theme "scroll-indicator"
  (if self.up then
     [DrawCall.blit IconId.upArrow self.x self.y (some color) none none]
   else []) ++
  (if self.down then
     [DrawCall.blit IconId.downArrow self.x (self.y + 13) (some color) none none]
   else [])

/-- `ScrollIndicator.draw` is a synonym for `update`. -/
def ScrollIndicator.draw (env : Env) (self : ScrollIndicator) :
    List DrawCall :=
  ScrollIndicator.update env self

/-- `Button` state: the immutable `(x, y, w, h, label)` tuple. -/
structure Button where
  x : ℤ
  y : ℤ
  w : ℤ
  h : ℤ
  label : String
deriving DecidableEq, Repr

/-- `Button.draw`. -/
def Button.draw (env : Env) (self : Button) : List DrawCall :=
  let bg := env.darken (env.theme "ui")
  let frame := env.theme "mid"
  let txt := env.theme "bright"
  [DrawCall.fill bg self.x self.y self.w self.h,
   DrawCall.setColor txt (some bg),
   DrawCall.setFont FontId.sans24,
   DrawCall.drawString self.label self.x (self.y + pyFloorDiv self.h 2 - 12)
     (some self.w),
   DrawCall.fill frame self.x self.y self.w 2,
   DrawCall.fill frame self.x (self.y + self.h - 2) self.w 2,
   DrawCall.fill frame self.x self.y 2 self.h,
   DrawCall.fill frame (self.x + self.w - 2) self.y 2 self.h]

/-- `Button.touch`: hit test against the rectangle grown by 10px on every
side. -/
def Button.touch (self : Button) (tx ty : ℤ) : Bool :=
  let x1 := self.x - 10
  let x2 := x1 + self.w + 20
  let y1 := self.y - 10
  let y2 := y1 + self.h + 20
  decide (x1 ≤ tx ∧ tx < x2 ∧ y1 ≤ ty ∧ ty < y2)

/-- `Checkbox` state. -/
structure Checkbox where
  x : ℤ
  y : ℤ
  label : Option String
  state : Bool
deriving DecidableEq, Repr

/-- `Checkbox.update`: repaint only the checkbox glyph. -/
def Checkbox.update (env : Env) (self : Checkbox) : List DrawCall :=
  let (fg, c1, c2) :=
    if self.state then
      let c1 := env.theme "ui"
      let c2 := env.lighten c1 (env.theme "contrast")
      (c2, c1, c2)
    else (env.theme "mid", 0, 0)
  let x := if self.label.isSome then 239 - 32 - 4 else self.x
  [DrawCall.blit IconId.checkbox x self.y (some fg) (some c1) (some c2)]

/-- `Slider` state.  `_stepsize = _SLIDER_TRACK / (steps-1)` is a derived
float; it is recomputed from `steps` where used. -/
structure Slider where
  value : ℤ
  steps : ℤ
  x : ℤ
  y : ℤ
  color : Option ℤ
  lowlight : Option ℤ
deriving DecidableEq, Repr

/-- `Slider.__init__(steps, x=10, y=90, color=None)`. -/
def Slider.mkNew (steps : ℤ) (x : ℤ := 10) (y : ℤ := 90)
    (color : Option ℤ := none) : Slider :=
  { value := 0, steps := steps, x := x, y := y, color := color, lowlight := none }

/-- `Slider.draw`.  Constants: knob diameter 40, knob radius 20, width 220,
track 180, track height 8, track y1 16, track y2 24. -/
def Slider.draw (env : Env) (self : Slider) : Slider × List DrawCall :=
  let color := match self.color with
    | some c => c
    | none => env.theme "ui"
  let lowlight := match self.lowlight with
    | some l => l
    | none => env.lighten color (env.theme "contrast")
  let self' := { self with color := some color, lowlight := some lowlight }
  let knobX := self.x + pyFloorDiv (180 * self.value) (self.steps - 1)
  let w := knobX - self.x
  let leftCalls :=
    if 0 < w then
      [DrawCall.fill 0 self.x self.y w 16] ++
      (if 20 < w then
         [DrawCall.fill 0 self.x (self.y + 16) 20 8,
          DrawCall.fill color (self.x + 20) (self.y + 16) (w - 20) 8]
       else
         [DrawCall.fill 0 self.x (self.y + 16) w 8]) ++
      [DrawCall.fill 0 self.x (self.y + 24) w 16]
    else []
  let sx := knobX + 40
  let w2 := 220 - 40 - w
  let rightCalls :=
    if 0 < w2 then
      [DrawCall.fill 0 sx self.y w2 16] ++
      (if 20 < w2 then
         [DrawCall.fill 0 (sx + w2 - 20) (self.y + 16) 20 8,
          DrawCall.fill lowlight sx (self.y + 16) (w2 - 20) 8]
       else
         [DrawCall.fill 0 sx (self.y + 16) w2 8]) ++
      [DrawCall.fill 0 sx (self.y + 24) w2 16]
    else []
  (self',
   [DrawCall.blit IconId.knob knobX self.y (some color) none none] ++
     leftCalls ++ rightCalls)

/-- `Slider.update` delegates to `draw`. -/
def Slider.update (env : Env) (self : Slider) : Slider × List DrawCall :=
  Slider.draw env self

/-- The clamp at the end of `Slider.touch`:
`if v < 0: v = 0 elif v >= steps: v = steps - 1`. -/
def pyClampSteps (steps v : ℤ) : ℤ :=
  if v < 0 then 0 else if steps ≤ v then steps - 1 else v

/-- `Slider.touch`: `threshold = self._x + 20 - (self._stepsize / 2);
v = int((tx - threshold) / self._stepsize)`, then clamp.  Every float
operation is binary64-rounded: `_stepsize` is CPython's correctly rounded
`int / int` true division (from `__init__`), the int operands `self._x + 20`
and `tx` are converted to float, and the halving, the subtractions and the
final division each round their exact result. -/
def Slider.touch (self : Slider) (tx : ℤ) : Slider :=
  let stepsize : ℚ := flRound (180 / ((self.steps : ℚ) - 1))
  let threshold : ℚ :=
    flRound (flRound ((self.x : ℚ) + 20) - flRound (stepsize / 2))
  let v := pyTrunc (flRound (flRound (flRound (tx : ℚ) - threshold) / stepsize))
  { self with value := pyClampSteps self.steps v }

/-- `Slider.touch` with the Python float arithmetic replaced by exact
rational arithmetic: the idealization against which the spec's rounding
formula is compared.  The float program deviates from it where rounding
error crosses an integer boundary (see the counterexample theorem). -/
def sliderTouchExact (self : Slider) (tx : ℤ) : ℤ :=
  let stepsize : ℚ := 180 / ((self.steps : ℚ) - 1)
  let threshold : ℚ := (self.x : ℚ) + 20 - stepsize / 2
  pyClampSteps self.steps (pyTrunc (((tx : ℚ) - threshold) / stepsize))

/-- Modelled from the spec: "touch converts x-position to a step index via
`round((x − leftEdge) / stepSize)` clamped to [0, steps−1]" with `leftEdge`
the track start (widget x plus the 20px knob radius) and
`stepSize = (220 − 40) / (steps − 1)`; `round` is half-up rounding
`⌊q + 1/2⌋`.  Stated for comparison with `Slider.touch`. -/
def sliderTouchSpec (x steps tx : ℤ) : ℤ :=
  max 0 (min (steps - 1)
    (ratFloor (((tx : ℚ) - ((x : ℚ) + 20)) / ((220 - 40) / ((steps : ℚ) - 1))
      + 1 / 2)))

/-- `Spinner` state: the `(x, y, mn, mx, field)` tuple plus the value. -/
structure Spinner where
  x : ℤ
  y : ℤ
  mn : ℤ
  mx : ℤ
  field : ℤ
  value : ℤ
deriving DecidableEq, Repr

/-- `Spinner.__init__(x, y, mn, mx, field=1)`. -/
def Spinner.mkNew (x y mn mx : ℤ) (field : ℤ := 1) : Spinner :=
  { x := x, y := y, mn := mn, mx := mx, field := field, value := mn }

/-- `Spinner.update`: repaint the zero-padded numeric field. -/
def Spinner.update (env : Env) (self : Spinner) : List DrawCall :=
  let s := toString self.value
  let s :=
    if (s.length : ℤ) < self.field then
      String.mk (List.replicate (self.field - (s.length : ℤ)).toNat '0') ++ s
    else s
  [DrawCall.setColor (env.theme "bright") none,
   DrawCall.setFont FontId.sans28,
   DrawCall.drawString s self.x (self.y + 60 - 14) (some 60)]

/-- `Spinner.touch`: inside the 60x120 hit box the upper half increments
(`if self.value > im[3]: self.value = im[2]` after the increment) and the
lower half decrements (`if self.value < im[2]: self.value = im[3] - 1`). -/
def Spinner.touch (env : Env) (self : Spinner) (tx ty : ℤ) :
    Spinner × Bool × List DrawCall :=
  if self.x ≤ tx ∧ tx < self.x + 60 ∧ self.y ≤ ty ∧ ty < self.y + 120 then
    let value :=
      if ty < self.y + 60 then
        let v := self.value + 1
        if self.mx < v then self.mn else v
      else
        let v := self.value - 1
        if v < self.mn then self.mx - 1 else v
    let self' := { self with value := value }
    (self', true, Spinner.update env self')
  else (self, false, [])

/-- `ConfirmationView` state: the lifecycle flags and the two buttons. -/
structure ConfirmationView where
  active : Bool
  value : Bool
  yes : Button
  no : Button
deriving DecidableEq, Repr

/-- The Yes button of `ConfirmationView.__init__`. -/
def yesButton : Button := { x := 20, y := 140, w := 90, h := 45, label := "Yes" }

/-- The No button of `ConfirmationView.__init__`. -/
def noButton : Button := { x := 130, y := 140, w := 90, h := 45, label := "No" }

/-- `ConfirmationView.__init__`. -/
def ConfirmationView.mkNew : ConfirmationView :=
  { active := false, value := false, yes := yesButton, no := noButton }

/-- `ConfirmationView.draw(message)`: mute, clear, render message and
buttons, unmute, and become active.  `value` is not touched. -/
def ConfirmationView.draw (env : Env) (self : ConfirmationView)
    (message : String) : ConfirmationView × List DrawCall :=
  ({ self with active := true },
   [DrawCall.mute true,
    DrawCall.setColor (env.theme "bright") none,
    DrawCall.setFont FontId.sans24,
    DrawCall.fillAll,
    DrawCall.drawString message 0 60 none] ++
   Button.draw env self.yes ++ Button.draw env self.no ++
   [DrawCall.mute false])

/-- `ConfirmationView.touch`: inactive views consume nothing; active views
try the Yes button first, then the No button. -/
def ConfirmationView.touch (self : ConfirmationView) (tx ty : ℤ) :
    ConfirmationView × Bool :=
  if !self.active then (self, false)
  else if self.yes.touch tx ty then
    ({ self with active := false, value := true }, true)
  else if self.no.touch tx ty then
    ({ self with active := false, value := false }, true)
  else (self, false)

/-- Order-swapped variant of `ConfirmationView.touch` that tries the No
button first; stated only to compare dispatch orders (claim about
order-independence of the resulting value). -/
def ConfirmationView.touchRev (self : ConfirmationView) (tx ty : ℤ) :
    ConfirmationView × Bool :=
  if !self.active then (self, false)
  else if self.no.touch tx ty then
    ({ self with active := false, value := false }, true)
  else if self.yes.touch tx ty then
    ({ self with active := false, value := true }, true)
  else (self, false)

/-- Python whitespace characters stripped by `str.rstrip()` (ASCII set). -/
def pySpace (c : Char) : Bool :=
  c = ' ' || c = '\t' || c = '\n' || c = '\x0b' || c = '\x0c' || c = '\r'

/-- Python `s.rstrip()`. -/
def pyRstrip (s : String) : String :=
  String.mk (s.toList.reverse.dropWhile pySpace).reverse

/-- Python `s[a:b]` for non-negative offsets (as produced by `draw.wrap`). -/
def pySlice (s : String) (a b : ℕ) : String :=
  String.mk ((s.toList.drop a).take (b - a))

/-- `Card` state.  `on_icon` is an attribute that `__init__` never sets; it
only comes into existence when `touch` runs the "On" branch, so it is an
`Option` of the stored icon (`none` = attribute missing, reading it raises
`AttributeError`). -/
structure Card where
  icon : Option IconId
  title : String
  state : String
  isFirst : Bool
  isLast : Bool
  onIcon : Option (Option IconId)
deriving DecidableEq, Repr

/-- `Card.__init__(icon, title, state)`. -/
def Card.mkNew (icon : Option IconId) (title : String) (state : String) :
    Card :=
  { icon := icon, title := title, state := state,
    isFirst := true, isLast := true, onIcon := none }

/-- The title lines drawn by `Card.draw(all=True)`: the text is wrapped by
the Drawing Surface and each chunk is drawn right-stripped. -/
def cardTitleCalls (env : Env) (title : String) : List DrawCall :=
  let chunks := env.wrap title 160
  (List.range (chunks.length - 1)).map fun i =>
    DrawCall.drawString
      (pyRstrip (pySlice title (chunks.getD i 0) (chunks.getD (i + 1) 0)))
      40 (120 + 28 * (i : ℤ)) none

/-- `Card.draw(all)`: with `all=False` only the icon and the state label are
repainted (x = 20, y = 20 are locals in the source). -/
def Card.draw (env : Env) (self : Card) (all : Bool) : List DrawCall :=
  (if all then
     (if self.isFirst then [] else [DrawCall.fill 0xffff 30 0 180 5]) ++
     (if self.isLast then [] else [DrawCall.fill 0xffff 30 235 180 5])
   else []) ++
  (if all then [DrawCall.fill 0xffff 20 20 200 200] else []) ++
  [DrawCall.setColor 0xffff (some 0xffff)] ++
  (match self.icon with
   | some i => [DrawCall.blit i 30 30 none none none]
   | none => []) ++
  (if all && self.title != "" then
     [DrawCall.setColor 0 (some 0xffff), DrawCall.setFont FontId.sans24] ++
     cardTitleCalls env self.title
   else []) ++
  [DrawCall.setColor (env.theme "mid") (some 0xffff),
   DrawCall.drawString self.state 40 180 none]

/-- `Card.touch`: no hit-test guard.  An "On" card saves its icon into
`on_icon` and switches to the `light_off_50` bitmap; any other state reads
`self.on_icon`, which raises `AttributeError` when the attribute was never
assigned.  On success it repaints partially (`draw(all=False)`) and returns
`True`. -/
def Card.touch (env : Env) (self : Card) (_tx _ty : ℤ) :
    Except String (Card × Bool × List DrawCall) :=
  if self.state = "On" then
    let self' :=
      { self with state := "Off", onIcon := some self.icon, icon := some IconId.lightOff50 }
    Except.ok (self', true, Card.draw env self' false)
  else
    match self.onIcon with
    | none => Except.error "AttributeError: on_icon"
    | some i =>
        let self' := { self with state := "On", icon := i }
        Except.ok (self', true, Card.draw env self' false)

/-- A concrete environment for closed evaluations. -/
def defEnv : Env :=
  { now := { year := 2021, month := 3, day := 14, hour := 15, minute := 9,
             second := 26, weekday := 0, yearday := 73 }
    charging := false
    batteryLevel := 50
    connected := false
    notifications := false
    theme := fun _ => 7
    batteryIconW := 40
    darken := fun c => c
    lighten := fun c _ => c
    wrap := fun _ _ => [] }

/-- A `Spinner(0, 0, 0, 3)` whose value has been stepped up to 2. -/
def spinner03 : Spinner := { Spinner.mkNew 0 0 0 3 with value := 2 }

/-- A card constructed in the "Off" state (no `on_icon` attribute yet). -/
def sampleOffCard : Card := Card.mkNew (some (IconId.custom 0)) "Lamp" "Off"

/-- A card constructed in the "On" state. -/
def sampleOnCard : Card := Card.mkNew (some (IconId.custom 0)) "Lamp" "On"

/-! ### Helper lemmas -/

theorem ratFloor_eq (q : ℚ) : ratFloor q = ⌊q⌋ := by
  rw [ratFloor, Rat.floor_def]
  exact Int.fdiv_eq_ediv _ (by positivity)

theorem ratCeil_eq (q : ℚ) : ratCeil q = ⌈q⌉ := by
  rw [ratCeil, ratFloor_eq, Int.floor_neg, neg_neg]

theorem pyTrunc_eq (q : ℚ) : pyTrunc q = if q < 0 then ⌈q⌉ else ⌊q⌋ := by
  rw [pyTrunc, ratFloor_eq, ratCeil_eq]

/-- Clamping commutes between truncation and flooring: the code's
`int()`-then-clamp agrees with floor-then-clamp (they only differ on
negative arguments, where both clamp to 0). -/
theorem pyClampSteps_pyTrunc (steps : ℤ) (h2 : 2 ≤ steps) (q : ℚ) :
    pyClampSteps steps (pyTrunc q) = max 0 (min (steps - 1) (ratFloor q)) := by
  rw [pyTrunc_eq, ratFloor_eq]
  by_cases hq : q < 0
  · rw [if_pos hq]
    have hc : ⌈q⌉ ≤ 0 := Int.ceil_le.mpr (by exact_mod_cast hq.le)
    have hf : ⌊q⌋ ≤ ⌈q⌉ := Int.floor_le_ceil q
    rw [pyClampSteps, max_def, min_def]
    split_ifs <;> omega
  · rw [if_neg hq]
    have hf : 0 ≤ ⌊q⌋ := Int.floor_nonneg.mpr (not_lt.mp hq)
    rw [pyClampSteps, max_def, min_def]
    split_ifs <;> omega

/-- `ratFloor` at a concrete value, from the two bracketing inequalities. -/
theorem ratFloor_eq_of (x : ℚ) (f : ℤ) (h1 : (f : ℚ) ≤ x)
    (h2 : x < (f : ℚ) + 1) : ratFloor x = f := by
  rw [ratFloor_eq]
  exact Int.floor_eq_iff.mpr ⟨h1, h2⟩

/-- `roundHalfEven` rounds down when the fractional part is below 1/2. -/
theorem roundHalfEven_eq_of_lt (x : ℚ) (f : ℤ) (hf : ratFloor x = f)
    (hr : x - (f : ℚ) < 1 / 2) : roundHalfEven x = f := by
  rw [roundHalfEven, hf, if_pos hr]

/-- `roundHalfEven` rounds up when the fractional part is above 1/2. -/
theorem roundHalfEven_eq_of_gt (x : ℚ) (f m : ℤ) (hf : ratFloor x = f)
    (hr : 1 / 2 < x - (f : ℚ)) (hm : f + 1 = m) : roundHalfEven x = m := by
  rw [roundHalfEven, hf, if_neg (by linarith), if_pos hr, hm]

/-- `Int.log 2` at a concrete value, from the two bracketing powers. -/
theorem int_log2_eq (q : ℚ) (k : ℤ) (h0 : 0 < q)
    (h1 : (2 : ℚ) ^ k ≤ q) (h2 : q < (2 : ℚ) ^ (k + 1)) :
    Int.log 2 q = k := by
  have hcast : (((2 : ℕ) : ℚ)) = (2 : ℚ) := by norm_num
  have hle : k ≤ Int.log 2 q := by
    have hmono :=
      Int.log_mono_right (b := 2) (zpow_pos (by norm_num : (0 : ℚ) < 2) k) h1
    rw [show ((2 : ℚ)) ^ k = (((2 : ℕ) : ℚ)) ^ k by rw [hcast]] at hmono
    rwa [Int.log_zpow (by norm_num : 1 < 2)] at hmono
  have hlt : Int.log 2 q < k + 1 := by
    by_contra hc
    push_neg at hc
    have hz : ((2 : ℚ)) ^ (k + 1) ≤ ((2 : ℚ)) ^ (Int.log 2 q) :=
      zpow_le_zpow_right₀ (by norm_num) hc
    have hself : (((2 : ℕ) : ℚ)) ^ (Int.log 2 q) ≤ q :=
      Int.zpow_log_le_self (by norm_num : 1 < 2) h0
    rw [hcast] at hself
    linarith
  omega

/-- `flRound` at a concrete positive value: supply the binade `[2^k, 2^(k+1))`,
the rounded 53-bit significand `m`, and the resulting value `x = m * 2^(k-52)`. -/
theorem flRound_eq_of (q x : ℚ) (k m : ℤ) (h0 : 0 < q)
    (hk1 : (2 : ℚ) ^ k ≤ q) (hk2 : q < (2 : ℚ) ^ (k + 1))
    (hm : roundHalfEven (q * (2 : ℚ) ^ ((52 : ℤ) - k)) = m)
    (hx : (m : ℚ) * (2 : ℚ) ^ (k - 52) = x) :
    flRound q = x := by
  rw [flRound, if_neg (ne_of_gt h0), if_neg (not_lt.mpr h0.le),
    abs_of_pos h0, int_log2_eq q k h0 hk1 hk2, hm, one_mul, hx]

/-- The final clamp of `Slider.touch` always lands in `[0, steps - 1]`. -/
theorem pyClampSteps_range (steps v : ℤ) (h2 : 2 ≤ steps) :
    0 ≤ pyClampSteps steps v ∧ pyClampSteps steps v ≤ steps - 1 := by
  rw [pyClampSteps]
  split_ifs <;> omega

/-- If `Clock.update` reports a change, the reported tuple is the fetched
current time. -/
theorem clock_update_result_now (env : Env) (c : Clock) (t : TimeTuple)
    (h : (Clock.update env c).2.1 = some t) : t = env.now := by
  by_cases hc : c.onScreen = some env.now
  · simp [Clock.update, hc] at h
  · simp [Clock.update, hc] at h
    exact h.symm

/-- The `hmDiff` test as a proposition. -/
theorem hmDiff_iff (os : Option TimeTuple) (now : TimeTuple) :
    hmDiff os now = true ↔
      (os = none ∨ ∃ o, os = some o ∧
        (now.hour ≠ o.hour ∨ now.minute ≠ o.minute)) := by
  cases os with
  | none => simp [hmDiff]
  | some o =>
      simp [hmDiff, bne_iff_ne]
      tauto

/-- Hit characterization of the Yes button's oversized hit box. -/
theorem yesButton_touch_iff (tx ty : ℤ) :
    Button.touch yesButton tx ty = true ↔
      (10 ≤ tx ∧ tx < 120 ∧ 130 ≤ ty ∧ ty < 195) := by
  simp only [Button.touch, yesButton, decide_eq_true_eq]
  norm_num

/-- Hit characterization of the No button's oversized hit box. -/
theorem noButton_touch_iff (tx ty : ℤ) :
    Button.touch noButton tx ty = true ↔
      (120 ≤ tx ∧ tx < 230 ∧ 130 ≤ ty ∧ ty < 195) := by
  simp only [Button.touch, noButton, decide_eq_true_eq]
  norm_num

/-- No touch point hits both ConfirmationView buttons. -/
theorem yesNo_not_both (tx ty : ℤ) :
    ¬(Button.touch yesButton tx ty = true ∧ Button.touch noButton tx ty = true) := by
  rw [yesButton_touch_iff, noButton_touch_iff]
  omega

/-- A No-button hit is never a Yes-button hit. -/
theorem yes_false_of_no (tx ty : ℤ) (h : Button.touch noButton tx ty = true) :
    Button.touch yesButton tx ty = false := by
  cases hy : Button.touch yesButton tx ty with
  | false => rfl
  | true => exact absurd ⟨hy, h⟩ (yesNo_not_both tx ty)

/-- `ConfirmationView.touch` on an inactive view consumes nothing. -/
theorem confirmTouch_inactive (s : ConfirmationView) (tx ty : ℤ)
    (h : s.active = false) : ConfirmationView.touch s tx ty = (s, false) := by
  simp [ConfirmationView.touch, h]

/-- `ConfirmationView.touch` on an active view when the touch hits the No
button. -/
theorem confirmTouch_no (s : ConfirmationView) (tx ty : ℤ)
    (hy : s.yes = yesButton) (hn : s.no = noButton) (ha : s.active = true)
    (hnt : Button.touch noButton tx ty = true) :
    ConfirmationView.touch s tx ty =
      ({ s with active := false, value := false }, true) := by
  simp [ConfirmationView.touch, ha, hy, hn, hnt, yes_false_of_no tx ty hnt]

/-! ### Claim theorems -/

/-- C4: the battery fill bar at sensor level 82 (bar height h = 18).  The
source guards the clearing fill with `if 18 - h:`, so the unfilled portion
of height 22 - h = 4 is NOT cleared even though it is non-empty: the update
emits only the filled-portion paint, contradicting the stated
clear-then-paint behavior (the clear would be `fill 0 196 9 36 4`). -/
theorem battery_bar_skips_clear_at_h18 :
    BatteryMeter.update { defEnv with batteryLevel := 82 } { level := 50 } =
      ({ level := 82 }, [DrawCall.fill 9920 196 13 36 18]) ∧
    (22 - 18 ≠ 0) ∧
    DrawCall.fill 0 196 9 36 4 ∉
      (BatteryMeter.update { defEnv with batteryLevel := 82 } { level := 50 }).2 := by
  refine ⟨rfl, by decide, ?_⟩
  rw [show (BatteryMeter.update { defEnv with batteryLevel := 82 }
        { level := 50 }).2 = [DrawCall.fill 9920 196 13 36 18] from rfl]
  simp

/-- C6: Spinner with bounds [0, 3).  An upper-half touch at value 2 sets the
value to 3 (the excluded bound mx itself) instead of wrapping to 0, because
the wrap test is `value > mx` rather than `value >= mx`; the wrap to mn only
fires one increment later.  Decrementing from 0 does wrap to mx - 1 = 2. -/
theorem spinner_increment_reaches_mx :
    ((Spinner.touch defEnv spinner03 10 10).1.value = 3) ∧
    ((Spinner.touch defEnv spinner03 10 10).2.1 = true) ∧
    ((Spinner.touch defEnv { spinner03 with value := 3 } 10 10).1.value = 0) ∧
    ((Spinner.touch defEnv { spinner03 with value := 0 } 10 70).1.value = 2) :=
  ⟨rfl, rfl, rfl, rfl⟩

/-- C2 counterexample: NotificationBar (disconnected, no pending
notifications) performs a drawing call on every `update()`; since `draw()`
is a synonym of `update()` and the widget is stateless, the second
`update()` after `draw()` performs this same non-empty call list rather
than zero calls. -/
theorem widgets_lazy_second_update_cex :
    NotificationBar.draw defEnv (NotificationBar.mkNew 0 0) =
      NotificationBar.update defEnv (NotificationBar.mkNew 0 0) ∧
    NotificationBar.update defEnv (NotificationBar.mkNew 0 0) =
      [DrawCall.fill 0 0 0 52 32] ∧
    NotificationBar.update defEnv (NotificationBar.mkNew 0 0) ≠ [] := by
  refine ⟨rfl, rfl, ?_⟩
  rw [show NotificationBar.update defEnv (NotificationBar.mkNew 0 0) =
        [DrawCall.fill 0 0 0 52 32] from rfl]
  simp

/-- C1: `StatusBar.update` runs the clock child first; when the clock
reports no time change it returns `none`, leaves the meter and notification
children untouched and performs only the clock's drawing; when the clock
reports a change it runs the battery meter and then the notification bar
(in that order) and returns the fresh time value. -/
theorem statusBar_update_gates_children (env : Env) (s : StatusBar) :
    (StatusBar.update env s).trace.head? = some Child.clockC ∧
    ((Clock.update env s.clock).2.1 = none →
      StatusBar.update env s =
        { state := { clock := (Clock.update env s.clock).1,
                     meter := s.meter, notif := s.notif },
          result := none,
          calls := (Clock.update env s.clock).2.2,
          trace := [Child.clockC] }) ∧
    (∀ t, (Clock.update env s.clock).2.1 = some t →
      t = env.now ∧
      StatusBar.update env s =
        { state := { clock := (Clock.update env s.clock).1,
                     meter := (BatteryMeter.update env s.meter).1,
                     notif := s.notif },
          result := some t,
          calls := (Clock.update env s.clock).2.2 ++
                   (BatteryMeter.update env s.meter).2 ++
                   NotificationBar.update env s.notif,
          trace := [Child.clockC, Child.meterC, Child.notifC] }) := by
  refine ⟨?_, ?_, ?_⟩
  · cases h : (Clock.update env s.clock).2.1 <;> simp [StatusBar.update, h]
  · intro h
    simp [StatusBar.update, h]
  · intro t h
    exact ⟨clock_update_result_now env s.clock t h, by simp [StatusBar.update, h]⟩

/-- C1 witness: on a freshly constructed status bar the clock reports a
change, so the update returns the fresh time. -/
theorem statusBar_update_gates_children_w :
    (StatusBar.update defEnv StatusBar.mkNew).result = some defEnv.now := by
  have h := ((statusBar_update_gates_children defEnv StatusBar.mkNew).2.2
    defEnv.now (by rfl)).2
  rw [h]

/-- C2 (amended): after `draw()`, a second `update()` with unchanged tracked
inputs performs zero drawing calls for BatteryMeter and Clock (their states
are also fixed points); NotificationBar, Slider, Checkbox and Spinner
instead repaint unconditionally on every `update()`, as does ScrollIndicator
whenever at least one of its arrows is enabled (both are by default). -/
theorem widgets_lazy_second_update (env : Env) (b : BatteryMeter) (c : Clock)
    (nb : NotificationBar) (si : ScrollIndicator) (sl : Slider)
    (cb : Checkbox) (sp : Spinner) :
    ((BatteryMeter.update env (BatteryMeter.draw env b).1 =
        ((BatteryMeter.draw env b).1, [])) ∧
      BatteryMeter.update env
          (BatteryMeter.update env (BatteryMeter.draw env b).1).1 =
        ((BatteryMeter.draw env b).1, [])) ∧
    ((Clock.update env (Clock.draw env c).1 =
        ((Clock.draw env c).1, none, [])) ∧
      Clock.update env (Clock.update env (Clock.draw env c).1).1 =
        ((Clock.draw env c).1, none, [])) ∧
    NotificationBar.update env nb ≠ [] ∧
    (si.up = true ∨ si.down = true → ScrollIndicator.update env si ≠ []) ∧
    (Slider.update env sl).2 ≠ [] ∧
    Checkbox.update env cb ≠ [] ∧
    Spinner.update env sp ≠ [] := by
  refine ⟨?_, ?_, ?_, ?_, ?_, ?_, ?_⟩
  · have hA : BatteryMeter.update env (BatteryMeter.draw env b).1 =
        ((BatteryMeter.draw env b).1, []) := by
      by_cases hch : env.charging
      · simp [BatteryMeter.draw, BatteryMeter.update, hch]
      · by_cases h2 : env.batteryLevel = -2
        · simp [BatteryMeter.draw, BatteryMeter.update, hch, h2]
        · simp [BatteryMeter.draw, BatteryMeter.update, hch, h2]
    refine ⟨hA, ?_⟩
    rw [hA]
    exact hA
  · have hA : Clock.update env (Clock.draw env c).1 =
        ((Clock.draw env c).1, none, []) := by
      simp [Clock.draw, Clock.update]
    refine ⟨hA, ?_⟩
    rw [hA]
    exact hA
  · by_cases hc : env.connected <;> by_cases hn : env.notifications <;>
      simp [NotificationBar.update, hc, hn]
  · rintro (h | h) <;> simp [ScrollIndicator.update, h]
  · simp [Slider.update, Slider.draw]
  · simp [Checkbox.update]
  · simp [Spinner.update]

/-- C2 witness: the lazy clause for the battery meter and the unconditional
repaint of the notification bar and scroll indicator, at concrete states. -/
theorem widgets_lazy_second_update_w :
    (BatteryMeter.update defEnv (BatteryMeter.draw defEnv BatteryMeter.mkNew).1 =
      ((BatteryMeter.draw defEnv BatteryMeter.mkNew).1, [])) ∧
    NotificationBar.update defEnv (NotificationBar.mkNew 0 0) ≠ [] ∧
    ScrollIndicator.update defEnv ScrollIndicator.mkNew ≠ [] := by
  have h := widgets_lazy_second_update defEnv BatteryMeter.mkNew
    (Clock.mkNew true) (NotificationBar.mkNew 0 0) ScrollIndicator.mkNew
    (Slider.mkNew 5) { x := 0, y := 0, label := none, state := false }
    (Spinner.mkNew 0 0 0 3 1)
  exact ⟨h.1.1, h.2.2.1, h.2.2.2.1 (Or.inl rfl)⟩

/-- C3: `Clock.update` returns `none` exactly when the fetched time equals
`on_screen`; otherwise it stores the fetched time as `on_screen` and reports
it as changed even when disabled; the HH:MM text is rendered exactly when
the clock is enabled and there is no prior state or the hour or minute
differs from it. -/
theorem clock_update_spec (env : Env) (s : Clock) :
    ((Clock.update env s).2.1 = none ↔ s.onScreen = some env.now) ∧
    (Clock.update env s).1.onScreen = some env.now ∧
    (Clock.update env s).1.enabled = s.enabled ∧
    (s.onScreen ≠ some env.now → (Clock.update env s).2.1 = some env.now) ∧
    ((Clock.update env s).2.2 ≠ [] ↔
      (s.enabled = true ∧ (s.onScreen = none ∨ ∃ os, s.onScreen = some os ∧
        (env.now.hour ≠ os.hour ∨ env.now.minute ≠ os.minute)))) := by
  by_cases h : s.onScreen = some env.now
  · refine ⟨by simp [Clock.update, h], by simp [Clock.update, h],
      by simp [Clock.update, h], fun hne => absurd h hne, ?_⟩
    rw [Clock.update]
    simp only [h, if_pos]
    constructor
    · intro hne
      exact absurd rfl hne
    · rintro ⟨-, (h0 | ⟨os, hos, hd⟩)⟩
      · exact Option.noConfusion h0
      · obtain rfl := Option.some.inj hos
        rcases hd with hd | hd <;> exact absurd rfl hd
  · refine ⟨by simp [Clock.update, h], by simp [Clock.update, h],
      by simp [Clock.update, h], fun _ => by simp [Clock.update, h], ?_⟩
    rw [Clock.update]
    simp only [h, if_neg]
    cases hb : (s.enabled && hmDiff s.onScreen env.now) with
    | true =>
        rcases Bool.and_eq_true .. ▸ hb with ⟨he, hd⟩
        simp only [if_true, clockRenderCalls]
        constructor
        · intro _
          exact ⟨he, (hmDiff_iff s.onScreen env.now).mp hd⟩
        · intro _
          simp
    | false =>
        simp only [if_false] at hb ⊢
        constructor
        · intro hne
          exact absurd rfl hne
        · rintro ⟨he, hd⟩
          rw [Bool.and_eq_false_iff] at hb
          rcases hb with hb | hb
          · simp [hb] at he
          · exact absurd ((hmDiff_iff s.onScreen env.now).mpr hd) (by simp [hb])

/-- C3 witness: a clock with no prior state reports the fetched time as
changed. -/
theorem clock_update_spec_w :
    (Clock.update defEnv (Clock.mkNew true)).2.1 = some defEnv.now :=
  (clock_update_spec defEnv (Clock.mkNew true)).2.2.2.1 (by simp [Clock.mkNew])

/-- Appending call lists distributes over the battery-icon test. -/
theorem hasBatteryIconBlit_append (a b : List DrawCall) :
    hasBatteryIconBlit (a ++ b) =
      (hasBatteryIconBlit a || hasBatteryIconBlit b) :=
  List.any_append

/-- A conditional fill never contains a battery-icon blit. -/
theorem hasBatteryIconBlit_fill_ite (c : Prop) [Decidable c]
    (col x y w h : ℤ) :
    hasBatteryIconBlit (if c then [DrawCall.fill col x y w h] else []) =
      false := by
  split_ifs <;> rfl

/-- C5: for a non-charging update with a changed level and a non-negative
cached previous level, the battery icon is redrawn exactly when
`(level > 5) XOR (previous > 5)`; in particular 7→5 and 5→7 redraw the icon
while 7→6 does not. -/
theorem battery_icon_redraw_iff_crossing (env : Env) (prev : ℤ)
    (hch : env.charging = false) (hp : 0 ≤ prev)
    (hne : env.batteryLevel ≠ prev) :
    hasBatteryIconBlit (BatteryMeter.update env { level := prev }).2 =
      (decide (5 < env.batteryLevel) != decide (5 < prev)) ∧
    hasBatteryIconBlit
      (BatteryMeter.update { defEnv with batteryLevel := 5 }
        { level := 7 }).2 = true ∧
    hasBatteryIconBlit
      (BatteryMeter.update { defEnv with batteryLevel := 7 }
        { level := 5 }).2 = true ∧
    hasBatteryIconBlit
      (BatteryMeter.update { defEnv with batteryLevel := 6 }
        { level := 7 }).2 = false := by
  refine ⟨?_, rfl, rfl, rfl⟩
  have hp' : decide (prev < 0) = false := decide_eq_false (not_lt.mpr hp)
  by_cases h5l : 5 < env.batteryLevel <;> by_cases h5p : 5 < prev <;>
    simp [BatteryMeter.update, hch, hne, hp', h5l, h5p,
      hasBatteryIconBlit_append, hasBatteryIconBlit_fill_ite,
      hasBatteryIconBlit]

/-- C5 witness: the 7→5 downward crossing redraws the icon. -/
theorem battery_icon_redraw_iff_crossing_w :
    hasBatteryIconBlit
      (BatteryMeter.update { defEnv with batteryLevel := 5 }
        { level := 7 }).2 = true :=
  (battery_icon_redraw_iff_crossing { defEnv with batteryLevel := 5 } 7
    rfl (by decide) (by decide)).2.1

/-- C8: the ConfirmationView state machine: an inactive view never consumes
a touch and never mutates `value`; `draw` activates the view; an active view
consumed by a Yes hit sets `value := true`, by a No hit sets
`value := false`, either hit deactivates; a miss leaves the view active and
unconsumed; and after `draw`, a touch on the No button sets `value := false`
while a second identical touch is not consumed. -/
theorem confirmation_view_machine (env : Env) (s : ConfirmationView)
    (tx ty : ℤ) (hy : s.yes = yesButton) (hn : s.no = noButton) :
    (s.active = false → ConfirmationView.touch s tx ty = (s, false)) ∧
    (s.active = true → Button.touch yesButton tx ty = true →
      ConfirmationView.touch s tx ty =
        ({ s with active := false, value := true }, true)) ∧
    (s.active = true → Button.touch noButton tx ty = true →
      ConfirmationView.touch s tx ty =
        ({ s with active := false, value := false }, true)) ∧
    (s.active = true → Button.touch yesButton tx ty = false →
      Button.touch noButton tx ty = false →
      ConfirmationView.touch s tx ty = (s, false)) ∧
    (ConfirmationView.draw env s "m").1.active = true ∧
    (∀ msg, Button.touch noButton tx ty = true →
      ((ConfirmationView.touch (ConfirmationView.draw env s msg).1 tx ty).1.value
          = false ∧
       (ConfirmationView.touch (ConfirmationView.draw env s msg).1 tx ty).2
          = true ∧
       ConfirmationView.touch
         (ConfirmationView.touch (ConfirmationView.draw env s msg).1 tx ty).1
         tx ty =
         ((ConfirmationView.touch (ConfirmationView.draw env s msg).1 tx ty).1,
          false))) := by
  refine ⟨confirmTouch_inactive s tx ty, ?_, ?_, ?_, rfl, ?_⟩
  · intro ha hyt
    simp [ConfirmationView.touch, ha, hy, hyt]
  · exact fun ha hnt => confirmTouch_no s tx ty hy hn ha hnt
  · intro ha hyf hnf
    simp [ConfirmationView.touch, ha, hy, hn, hyf, hnf]
  · intro msg hnt
    have hs1 : (ConfirmationView.draw env s msg).1 = { s with active := true } := rfl
    have h1 := confirmTouch_no { s with active := true } tx ty hy hn rfl hnt
    rw [hs1, h1]
    exact ⟨rfl, rfl, confirmTouch_inactive _ tx ty rfl⟩

/-- C8 witness: a fresh view drawn and touched at (150, 150) — inside the
No button — ends with `value = false` and does not consume a second touch. -/
theorem confirmation_view_machine_w :
    ((ConfirmationView.touch
        (ConfirmationView.draw defEnv ConfirmationView.mkNew "m").1
        150 150).1.value = false) ∧
    ((ConfirmationView.touch
        (ConfirmationView.draw defEnv ConfirmationView.mkNew "m").1
        150 150).2 = true) ∧
    ConfirmationView.touch
      (ConfirmationView.touch
        (ConfirmationView.draw defEnv ConfirmationView.mkNew "m").1
        150 150).1 150 150 =
      ((ConfirmationView.touch
        (ConfirmationView.draw defEnv ConfirmationView.mkNew "m").1
        150 150).1, false) :=
  (confirmation_view_machine defEnv ConfirmationView.mkNew 150 150
    rfl rfl).2.2.2.2.2 "m" (by decide)

/-- C10: the 10px-expanded hit boxes of the Yes and No buttons are disjoint,
splitting exactly at x = 120 (Yes covers x ∈ [10, 120), No covers
x ∈ [120, 230)), so at most one hit test succeeds and the Yes-before-No
dispatch order of `ConfirmationView.touch` does not affect the result. -/
theorem yes_no_buttons_disjoint :
    (∀ tx ty, ¬(Button.touch yesButton tx ty = true ∧
               Button.touch noButton tx ty = true)) ∧
    (∀ tx ty, Button.touch yesButton tx ty = true → tx < 120) ∧
    (∀ tx ty, Button.touch noButton tx ty = true → 120 ≤ tx) ∧
    Button.touch yesButton 119 150 = true ∧
    Button.touch noButton 120 150 = true ∧
    (∀ (s : ConfirmationView) tx ty, s.yes = yesButton → s.no = noButton →
      ConfirmationView.touch s tx ty = ConfirmationView.touchRev s tx ty) := by
  refine ⟨yesNo_not_both, ?_, ?_, by decide, by decide, ?_⟩
  · intro tx ty h
    exact ((yesButton_touch_iff tx ty).mp h).2.1
  · intro tx ty h
    exact ((noButton_touch_iff tx ty).mp h).1
  · intro s tx ty hy hn
    by_cases ha : s.active = true
    · cases hyt : Button.touch yesButton tx ty with
      | true =>
          have hnf : Button.touch noButton tx ty = false := by
            cases hnt : Button.touch noButton tx ty with
            | false => rfl
            | true => exact absurd ⟨hyt, hnt⟩ (yesNo_not_both tx ty)
          simp [ConfirmationView.touch, ConfirmationView.touchRev, ha, hy, hn,
            hyt, hnf]
      | false =>
          cases hnt : Button.touch noButton tx ty with
          | true =>
              simp [ConfirmationView.touch, ConfirmationView.touchRev, ha, hy,
                hn, hyt, hnt]
          | false =>
              simp [ConfirmationView.touch, ConfirmationView.touchRev, ha, hy,
                hn, hyt, hnt]
    · have ha' : s.active = false := by simpa using ha
      simp [ConfirmationView.touch, ConfirmationView.touchRev, ha']

/-- C10 witness: the buttons meet at x = 120 and dispatch order is
irrelevant for a fresh view. -/
theorem yes_no_buttons_disjoint_w :
    Button.touch yesButton 119 150 = true ∧
    ConfirmationView.touch ConfirmationView.mkNew 119 150 =
      ConfirmationView.touchRev ConfirmationView.mkNew 119 150 :=
  ⟨yes_no_buttons_disjoint.2.2.2.1,
   yes_no_buttons_disjoint.2.2.2.2.2 ConfirmationView.mkNew 119 150 rfl rfl⟩

/-- A partial repaint (`Card.draw` with `all = False`) performs no fill
calls: neither background, separators nor borders are repainted. -/
theorem card_draw_partial_no_fill (env : Env) (c : Card) (col x y w h : ℤ) :
    DrawCall.fill col x y w h ∉ Card.draw env c false := by
  cases hi : c.icon <;> simp [Card.draw, hi]

/-- A partial repaint draws only the state label, not the title. -/
theorem card_draw_partial_strings (env : Env) (c : Card) (str : String)
    (x y : ℤ) (w : Option ℤ)
    (hm : DrawCall.drawString str x y w ∈ Card.draw env c false) :
    str = c.state := by
  cases hi : c.icon <;> simp [Card.draw, hi] at hm <;> exact hm.1

/-- C9 (amended): `Card.touch` completes for every card whose state is "On"
or whose `on_icon` attribute has already been assigned (as happens on any
touch in the "On" state): it toggles the state, swaps to the `light_off_50`
bitmap when turning off and restores the saved icon when turning on,
repaints partially (no fills, only the state label among the strings) and
returns consumed.  A card constructed in the "Off" state instead raises
`AttributeError` on its first touch (see the counterexample theorem). -/
theorem card_touch_on_or_saved (env : Env) (c : Card) (tx ty : ℤ)
    (h : c.state = "On" ∨ c.onIcon.isSome = true) :
    ∃ c' calls, Card.touch env c tx ty = Except.ok (c', true, calls) ∧
      c'.state = (if c.state = "On" then "Off" else "On") ∧
      (c.state = "On" → c'.icon = some IconId.lightOff50 ∧
        c'.onIcon = some c.icon) ∧
      (c.state ≠ "On" → ∀ i, c.onIcon = some i → c'.icon = i) ∧
      calls = Card.draw env c' false ∧
      (∀ col x y w hgt, DrawCall.fill col x y w hgt ∉ calls) ∧
      (∀ str x y w, DrawCall.drawString str x y w ∈ calls →
        str = c'.state) := by
  by_cases hs : c.state = "On"
  · refine ⟨{ c with state := "Off", onIcon := some c.icon, icon := some IconId.lightOff50 }, Card.draw env { c with state := "Off", onIcon := some c.icon, icon := some IconId.lightOff50 } false, ?_, ?_, ?_, ?_, rfl, ?_, ?_⟩
    · simp [Card.touch, hs]
    · rw [if_pos hs]
    · exact fun _ => ⟨rfl, rfl⟩
    · exact fun hns => absurd hs hns
    · exact fun col x y w hgt => card_draw_partial_no_fill env _ col x y w hgt
    · exact fun str x y w hm => card_draw_partial_strings env _ str x y w hm
  · rcases h with h | h
    · exact absurd h hs
    · obtain ⟨oi, hoi⟩ := Option.isSome_iff_exists.mp h
      refine ⟨{ c with state := "On", icon := oi },
        Card.draw env { c with state := "On", icon := oi } false,
        ?_, ?_, ?_, ?_, rfl, ?_, ?_⟩
      · simp [Card.touch, hs, hoi]
      · rw [if_neg hs]
      · exact fun hs' => absurd hs' hs
      · intro _ i hi
        rw [hoi] at hi
        obtain rfl := Option.some.inj hi
        rfl
      · exact fun col x y w hgt => card_draw_partial_no_fill env _ col x y w hgt
      · exact fun str x y w hm => card_draw_partial_strings env _ str x y w hm

/-- C9 witness: touching an "On" card succeeds and turns it "Off". -/
theorem card_touch_on_or_saved_w :
    ∃ c' calls, Card.touch defEnv sampleOnCard 0 0 =
      Except.ok (c', true, calls) ∧ c'.state = "Off" := by
  obtain ⟨c', calls, heq, hst, -, -, -, -, -⟩ :=
    card_touch_on_or_saved defEnv sampleOnCard 0 0 (Or.inl rfl)
  refine ⟨c', calls, heq, ?_⟩
  rw [hst]
  rfl

/-- Shifting the threshold by half a step turns the code's division into
the spec's division plus one half. -/
theorem sub_half_step_div (a b d : ℚ) (hd : d ≠ 0) :
    (a - (b - d / 2)) / d = (a - b) / d + 1 / 2 := by
  field_simp
  ring

/-- At or below the track start the spec formula clamps to 0. -/
theorem sliderTouchSpec_start (x steps tx : ℤ) (h2 : 2 ≤ steps)
    (hle : tx ≤ x + 20) : sliderTouchSpec x steps tx = 0 := by
  rw [sliderTouchSpec, ratFloor_eq]
  have hden : (0 : ℚ) < (steps : ℚ) - 1 := by
    have : (2 : ℚ) ≤ (steps : ℚ) := by exact_mod_cast h2
    linarith
  have hstep : (0 : ℚ) < (220 - 40) / ((steps : ℚ) - 1) :=
    div_pos (by norm_num) hden
  have hnum : ((tx : ℚ) - ((x : ℚ) + 20)) ≤ 0 := by
    have : (tx : ℚ) ≤ (x : ℚ) + 20 := by exact_mod_cast hle
    linarith
  have hu : ((tx : ℚ) - ((x : ℚ) + 20)) / ((220 - 40) / ((steps : ℚ) - 1)) ≤ 0 :=
    div_nonpos_iff.mpr (Or.inr ⟨hnum, hstep.le⟩)
  have hq : ((tx : ℚ) - ((x : ℚ) + 20)) / ((220 - 40) / ((steps : ℚ) - 1))
      + 1 / 2 < ((1 : ℤ) : ℚ) := by
    push_cast
    linarith
  have hf := Int.floor_lt.mpr hq
  have h2' : (0 : ℤ) ≤ steps - 1 := by omega
  rw [max_def, min_def]
  split_ifs <;> omega

/-- With 5 steps, at or above the track end the spec formula clamps to 4. -/
theorem sliderTouchSpec_end5 (x tx : ℤ) (hge : x + 200 ≤ tx) :
    sliderTouchSpec x 5 tx = 4 := by
  rw [sliderTouchSpec]
  rw [show ((220 : ℚ) - 40) / (((5 : ℤ) : ℚ) - 1) = 45 by norm_num]
  rw [ratFloor_eq]
  have hnum : (180 : ℚ) ≤ (tx : ℚ) - ((x : ℚ) + 20) := by
    have : ((x : ℚ) + 200) ≤ (tx : ℚ) := by exact_mod_cast hge
    linarith
  have hu : (4 : ℚ) ≤ ((tx : ℚ) - ((x : ℚ) + 20)) / 45 := by
    rw [le_div_iff₀ (by norm_num : (0 : ℚ) < 45)]
    linarith
  have hq : ((4 : ℤ) : ℚ) ≤ ((tx : ℚ) - ((x : ℚ) + 20)) / 45 + 1 / 2 := by
    push_cast
    linarith
  have hf := Int.le_floor.mpr hq
  rw [max_def, min_def]
  split_ifs <;> omega

/-- C7 (amended): for steps ≥ 2, `Slider.touch` clamps the computed step
index to [0, steps-1]; with the Python float arithmetic replaced by exact
rational arithmetic the computed index is exactly the spec's
`round((x - leftEdge)/stepSize)` clamped to [0, steps-1], and with steps = 5
the exact-arithmetic index clamps to 0 at or below the track start and to
steps-1 at or above the track end.  The float program itself can return one
step less than the round formula (see the counterexample theorem). -/
theorem slider_touch_round_clamp (s : Slider) (tx : ℤ) (h2 : 2 ≤ s.steps) :
    (0 ≤ (Slider.touch s tx).value ∧ (Slider.touch s tx).value ≤ s.steps - 1) ∧
    sliderTouchExact s tx = sliderTouchSpec s.x s.steps tx ∧
    (s.steps = 5 → tx ≤ s.x + 20 → sliderTouchExact s tx = 0) ∧
    (s.steps = 5 → s.x + 200 ≤ tx → sliderTouchExact s tx = s.steps - 1) := by
  have hden : (0 : ℚ) < (s.steps : ℚ) - 1 := by
    have : (2 : ℚ) ≤ (s.steps : ℚ) := by exact_mod_cast h2
    linarith
  have hne : (180 : ℚ) / ((s.steps : ℚ) - 1) ≠ 0 :=
    ne_of_gt (div_pos (by norm_num) hden)
  have hval : sliderTouchExact s tx =
      pyClampSteps s.steps (pyTrunc (((tx : ℚ) -
        ((s.x : ℚ) + 20 - (180 / ((s.steps : ℚ) - 1)) / 2)) /
        (180 / ((s.steps : ℚ) - 1)))) := rfl
  have hmain : sliderTouchExact s tx = sliderTouchSpec s.x s.steps tx := by
    rw [hval,
      sub_half_step_div (tx : ℚ) ((s.x : ℚ) + 20) (180 / ((s.steps : ℚ) - 1)) hne,
      pyClampSteps_pyTrunc s.steps h2, sliderTouchSpec,
      show ((220 : ℚ) - 40) = (180 : ℚ) by norm_num]
  refine ⟨?_, hmain, ?_, ?_⟩
  · rw [show (Slider.touch s tx).value =
        pyClampSteps s.steps (pyTrunc (flRound (flRound (flRound (tx : ℚ) -
          flRound (flRound ((s.x : ℚ) + 20) -
            flRound (flRound (180 / ((s.steps : ℚ) - 1)) / 2))) /
          flRound (180 / ((s.steps : ℚ) - 1))))) from rfl]
    exact pyClampSteps_range s.steps _ h2
  · intro h5 hle
    rw [hmain, h5]
    exact sliderTouchSpec_start s.x 5 tx (by norm_num) hle
  · intro h5 hge
    rw [hmain, h5, sliderTouchSpec_end5 s.x tx hge]
    norm_num

/-- C7 witness: a 5-step slider at x = 10: the float program's value at a
mid-track touch lies in [0, 4], the exact-arithmetic index at x = 100
follows the rounding formula, and exact-arithmetic touches at the track
start (25 ≤ 30) and past the track end (235 ≥ 210) clamp to 0 and 4. -/
theorem slider_touch_round_clamp_w :
    (0 ≤ (Slider.touch (Slider.mkNew 5) 100).value ∧
      (Slider.touch (Slider.mkNew 5) 100).value ≤ 4) ∧
    sliderTouchExact (Slider.mkNew 5) 100 = sliderTouchSpec 10 5 100 ∧
    sliderTouchExact (Slider.mkNew 5) 25 = 0 ∧
    sliderTouchExact (Slider.mkNew 5) 235 = 4 :=
  ⟨(slider_touch_round_clamp (Slider.mkNew 5) 100 (by decide)).1,
   (slider_touch_round_clamp (Slider.mkNew 5) 100 (by decide)).2.1,
   (slider_touch_round_clamp (Slider.mkNew 5) 25 (by decide)).2.2.1 rfl
     (by decide),
   (slider_touch_round_clamp (Slider.mkNew 5) 235 (by decide)).2.2.2 rfl
     (by decide)⟩

/-- C7 counterexample: a 14-step slider touched at x = 120.  The float
program computes `stepsize = fl(180/13) = 13.846153846153847`,
`threshold = 23.076923076923077`, quotient `fl ≈ 6.999999999999999`, and
`int()` truncates it to 6, while the claimed `round((tx - 30)/(180/13))`
formula gives `⌊6.5 + 1/2⌋ = 7`: the program's value is one step below the
formula, so the claimed identity does not hold for every slider and touch. -/
theorem slider_touch_float_cex :
    (Slider.touch (Slider.mkNew 14) 120).value = 6 ∧
    sliderTouchSpec 10 14 120 = 7 ∧
    (Slider.touch (Slider.mkNew 14) 120).value ≠ sliderTouchSpec 10 14 120 := by
  have hA : flRound ((180 : ℚ) / (((14 : ℤ) : ℚ) - 1)) =
      7794691662756628 / 2 ^ 49 := by
    apply flRound_eq_of _ _ 3 7794691662756628 (by norm_num) (by norm_num)
      (by norm_num) ?_ (by norm_num)
    exact roundHalfEven_eq_of_gt _ 7794691662756627 _
      (ratFloor_eq_of _ _ (by norm_num) (by norm_num)) (by norm_num)
      (by norm_num)
  have hB : flRound ((7794691662756628 : ℚ) / 2 ^ 49 / 2) =
      7794691662756628 / 2 ^ 50 := by
    apply flRound_eq_of _ _ 2 7794691662756628 (by norm_num) (by norm_num)
      (by norm_num) ?_ (by norm_num)
    exact roundHalfEven_eq_of_lt _ 7794691662756628
      (ratFloor_eq_of _ _ (by norm_num) (by norm_num)) (by norm_num)
  have hC : flRound (((10 : ℤ) : ℚ) + 20) = 30 := by
    apply flRound_eq_of _ _ 4 8444249301319680 (by norm_num) (by norm_num)
      (by norm_num) ?_ (by norm_num)
    exact roundHalfEven_eq_of_lt _ 8444249301319680
      (ratFloor_eq_of _ _ (by norm_num) (by norm_num)) (by norm_num)
  have hD : flRound ((30 : ℚ) - 7794691662756628 / 2 ^ 50) =
      6495576385630523 / 2 ^ 48 := by
    apply flRound_eq_of _ _ 4 6495576385630523 (by norm_num) (by norm_num)
      (by norm_num) ?_ (by norm_num)
    exact roundHalfEven_eq_of_lt _ 6495576385630523
      (ratFloor_eq_of _ _ (by norm_num) (by norm_num)) (by norm_num)
  have hE : flRound (((120 : ℤ) : ℚ)) = 120 := by
    apply flRound_eq_of _ _ 6 8444249301319680 (by norm_num) (by norm_num)
      (by norm_num) ?_ (by norm_num)
    exact roundHalfEven_eq_of_lt _ 8444249301319680
      (ratFloor_eq_of _ _ (by norm_num) (by norm_num)) (by norm_num)
  have hF : flRound ((120 : ℚ) - 6495576385630523 / 2 ^ 48) =
      6820355204912049 / 2 ^ 46 := by
    apply flRound_eq_of _ _ 6 6820355204912049 (by norm_num) (by norm_num)
      (by norm_num) ?_ (by norm_num)
    exact roundHalfEven_eq_of_lt _ 6820355204912049
      (ratFloor_eq_of _ _ (by norm_num) (by norm_num)) (by norm_num)
  have hG : flRound ((6820355204912049 : ℚ) / 2 ^ 46 /
        (7794691662756628 / 2 ^ 49)) =
      7881299347898367 / 2 ^ 50 := by
    apply flRound_eq_of _ _ 2 7881299347898367 (by norm_num) (by norm_num)
      (by norm_num) ?_ (by norm_num)
    exact roundHalfEven_eq_of_lt _ 7881299347898367
      (ratFloor_eq_of _ _ (by norm_num) (by norm_num)) (by norm_num)
  have hH : pyTrunc ((7881299347898367 : ℚ) / 2 ^ 50) = 6 := by
    rw [pyTrunc, if_neg (by norm_num)]
    exact ratFloor_eq_of _ _ (by norm_num) (by norm_num)
  have hv : (Slider.touch (Slider.mkNew 14) 120).value = 6 := by
    show pyClampSteps 14 (pyTrunc (flRound (flRound (flRound (((120 : ℤ) : ℚ)) -
      flRound (flRound (((10 : ℤ) : ℚ) + 20) -
        flRound (flRound ((180 : ℚ) / (((14 : ℤ) : ℚ) - 1)) / 2))) /
      flRound ((180 : ℚ) / (((14 : ℤ) : ℚ) - 1))))) = 6
    rw [hA, hB, hC, hD, hE, hF, hG, hH]
    decide
  have hs : sliderTouchSpec 10 14 120 = 7 := by
    show max 0 (min ((14 : ℤ) - 1)
      (ratFloor (((((120 : ℤ) : ℚ)) - ((((10 : ℤ) : ℚ)) + 20)) /
        ((220 - 40) / ((((14 : ℤ) : ℚ)) - 1)) + 1 / 2))) = 7
    rw [show (((((120 : ℤ) : ℚ)) - ((((10 : ℤ) : ℚ)) + 20)) /
        ((220 - 40) / ((((14 : ℤ) : ℚ)) - 1)) + 1 / 2) = 7 by norm_num]
    rw [ratFloor_eq_of 7 7 (by norm_num) (by norm_num)]
    decide
  exact ⟨hv, hs, by rw [hv, hs]; decide⟩

/-- C9 counterexample: a card constructed with state "Off" raises
`AttributeError` (reading the never-assigned `on_icon`) on its very first
touch, so `Card.touch` does not complete for every constructed state. -/
theorem card_touch_off_attribute_error :
    Card.touch defEnv sampleOffCard 0 0 =
      Except.error "AttributeError: on_icon" := rfl

end Wasp
